import Mathlib

/-!
Verification of the self-update mechanism of GDT-Packer.

The update pipeline of src/GDTPacker.py (get_version_data, get_updater_path,
check_for_updates, download_update, run_update, auto_update) and the updater
helper src/updater.py (log, main) are embedded as pure Lean functions.

External effects are made explicit:
  - the filesystem is a value of type FS (directories plus files with content);
  - every network request, file write, directory creation and process spawn is
    recorded in an event trace;
  - the outcome of each network interaction (HTTP status, delivered chunks,
    transport exception) is an oracle value passed in, so theorems quantify
    over all possible network behaviours;
  - Python exceptions are modelled explicitly where the distinction matters
    (except Exception does not catch SystemExit).

File content is modelled as a String (the concatenation of delivered chunks);
paths are strings joined with a fixed separator.
-/

abbrev FPath := String

/-- Model of os.path.join for the fixed two-component joins used by the code. -/
def pjoin (a b : String) : String := a ++ "/" ++ b

/-- Observable side effects of the update pipeline, in order of occurrence:
directory creation, network request issued, response body streaming begun,
file written, process spawned. -/
inductive Event where
  | mkdirEv (dir : FPath)
  | getEv (url : String)
  | streamEv (url : String)
  | writeEv (path : FPath) (content : String)
  | spawnEv (exe : String) (args : List String)
  deriving DecidableEq, Repr

/-- A filesystem: which directories exist, and the content of each existing
file (none when the file does not exist; content rendered as a String). -/
structure FS where
  dirs : FPath → Bool
  files : FPath → Option String

def FS.dirExists (fs : FS) (d : FPath) : Bool := fs.dirs d

def FS.read (fs : FS) (p : FPath) : Option String := fs.files p

def FS.fileExists (fs : FS) (p : FPath) : Bool := (fs.files p).isSome

def FS.write (fs : FS) (p : FPath) (c : String) : FS :=
  { fs with files := fun q => if q = p then some c else fs.files q }

def FS.mkdir (fs : FS) (d : FPath) : FS :=
  { fs with dirs := fun q => if q = d then true else fs.dirs q }

/-- State threaded through the main-process helpers: the filesystem and the
trace of observable events. -/
structure St where
  fs : FS
  events : List Event

def emptyFS : FS := ⟨fun _ => false, fun _ => none⟩

def emptySt : St := ⟨emptyFS, []⟩

/-- Count of network requests issued (calls to requests.get). -/
def attemptCount (evs : List Event) : Nat :=
  evs.countP (fun e => match e with | Event.getEv _ => true | _ => false)

/-- Count of downloads that actually streamed data (requests that answered
with HTTP 200 and began delivering a body). -/
def streamCount (evs : List Event) : Nat :=
  evs.countP (fun e => match e with | Event.streamEv _ => true | _ => false)

/-- Count of process spawns (subprocess.Popen calls). -/
def spawnCount (evs : List Event) : Nat :=
  evs.countP (fun e => match e with | Event.spawnEv _ _ => true | _ => false)

/-- The metadata document updates.json: each field is absent (None) or a
string, as produced by dict.get on the parsed JSON. -/
structure VersionData where
  version : Option String
  download_url : Option String
  updater_download_url : Option String
  deriving DecidableEq, Repr

/-- Python truthiness of an optional string: None and the empty string are
falsy, every other string is truthy. -/
def truthy : Option String → Bool
  | none => false
  | some s => s ≠ ""

/-- Python str.strip with no argument on a list of characters: remove
leading and trailing whitespace. -/
def stripChars (l : List Char) : List Char :=
  ((l.dropWhile Char.isWhitespace).reverse.dropWhile Char.isWhitespace).reverse

/-- Python str.strip with no argument: remove leading and trailing
whitespace from the string. -/
def pyStrip (s : String) : String := ⟨stripChars s.data⟩

/-- The local version constant VERSIONNUM of src/GDTPacker.py. -/
def VERSIONNUM : String := "1.2.2"

/-- Outcome of one metadata fetch (requests.get of updates.json plus JSON
parse): ok carries the parsed document on HTTP 200; badStatus is a non-200
response; exn is a transport or parse exception. -/
inductive FetchOutcome where
  | ok (d : VersionData)
  | badStatus (code : Nat)
  | exn
  deriving DecidableEq, Repr

def emptyVersionData : VersionData := ⟨none, none, none⟩

/-- src/GDTPacker.py get_version_data: returns the parsed metadata on HTTP
200, and the empty dict (all fields absent) on a non-200 status or on any
exception. -/
def get_version_data (f : FetchOutcome) : VersionData :=
  match f with
  | FetchOutcome.ok d => d
  | FetchOutcome.badStatus _ => emptyVersionData
  | FetchOutcome.exn => emptyVersionData

/-- src/GDTPacker.py check_for_updates: fetches updates.json and returns
(remote_version, download_url) when remote_version is truthy and differs
from the local version after both are stripped; otherwise (None, None).
The local version (VERSIONNUM in the source) is a parameter so theorems can
quantify over it; Python str.strip is modelled by pyStrip. -/
def check_for_updates (loc : String) (f : FetchOutcome) :
    Option String × Option String :=
  match f with
  | FetchOutcome.ok d =>
      if truthy d.version && (pyStrip (d.version.getD "") ≠ pyStrip loc) then
        (d.version, d.download_url)
      else (none, none)
  | FetchOutcome.badStatus _ => (none, none)
  | FetchOutcome.exn => (none, none)

/-- Outcome of one streamed download (requests.get with stream=True):
badStatus is a non-200 response (no file is opened); connFail is an
exception raised by requests.get itself (no file is opened); chunks ws
interrupted is an HTTP 200 response whose iterator delivered the chunks ws
(each written to the opened output file) and then either completed
(interrupted = false) or raised mid-stream (interrupted = true). In both
chunk cases the output file was opened with mode wb, so it exists with the
delivered content. -/
inductive DlOutcome where
  | badStatus (code : Nat)
  | connFail
  | chunks (ws : List String) (interrupted : Bool)
  deriving DecidableEq, Repr

/-- Content written by the chunk loop: empty chunks are skipped by the
if chunk guard, the rest are written in order. -/
def chunkContent (ws : List String) : String :=
  String.join (ws.filter (fun c => c ≠ ""))

/-- A download completed normally (HTTP 200 and the chunk iterator finished
without raising). -/
def completed : DlOutcome → Bool
  | DlOutcome.chunks _ interrupted => !interrupted
  | _ => false

/-- The fixed temp path used by download_update: os.path.join of the temp
directory and new_version.exe. -/
def tmp_payload_path (tmpdir : String) : FPath := pjoin tmpdir "new_version.exe"

/-- src/GDTPacker.py download_update: streamed GET of the new executable to
the fixed temp path. Returns the path only when the stream completed;
returns None on a non-200 status or on any exception, including an
exception raised mid-stream after chunks were already written (the partial
file stays on disk but None is returned). -/
def download_update (url : String) (tmpdir : String) (o : DlOutcome) (s : St) :
    Option FPath × St :=
  let s1 : St := { s with events := s.events ++ [Event.getEv url] }
  match o with
  | DlOutcome.badStatus _ => (none, s1)
  | DlOutcome.connFail => (none, s1)
  | DlOutcome.chunks ws interrupted =>
      let p := tmp_payload_path tmpdir
      let s2 : St := { s1 with
        fs := s1.fs.write p (chunkContent ws),
        events := s1.events ++ [Event.streamEv url, Event.writeEv p (chunkContent ws)] }
      if interrupted then (none, s2) else (some p, s2)

/-- The fixed updater directory: os.path.join(APPDATA, "ToolsMainUpdater"). -/
def updater_dir_path (appdata : String) : FPath := pjoin appdata "ToolsMainUpdater"

/-- The fixed updater binary path: os.path.join(updater_dir, "updater.exe"). -/
def updater_exe_path (appdata : String) : FPath :=
  pjoin (updater_dir_path appdata) "updater.exe"

/-- The directory-creation prefix of get_updater_path: if the updater
directory does not exist, os.makedirs creates it. -/
def ensure_dir (appdata : String) (s : St) : St :=
  if s.fs.dirExists (updater_dir_path appdata) then s
  else { s with fs := s.fs.mkdir (updater_dir_path appdata),
                events := s.events ++ [Event.mkdirEv (updater_dir_path appdata)] }

/-- src/GDTPacker.py get_updater_path: ensures the updater directory exists;
when the metadata carries a truthy updater_download_url and the updater
binary is not already on disk, attempts a streamed download of it (any
error is caught and logged); always returns the fixed updater path. -/
def get_updater_path (appdata : String) (vd : VersionData) (o : DlOutcome)
    (s : St) : FPath × St :=
  let s1 : St := ensure_dir appdata s
  let p := updater_exe_path appdata
  match vd.updater_download_url with
  | some u =>
      if u ≠ "" then
        if s1.fs.fileExists p then (p, s1)
        else
          let s2 : St := { s1 with events := s1.events ++ [Event.getEv u] }
          match o with
          | DlOutcome.badStatus _ => (p, s2)
          | DlOutcome.connFail => (p, s2)
          | DlOutcome.chunks ws _ =>
              (p, { s2 with
                fs := s2.fs.write p (chunkContent ws),
                events := s2.events ++
                  [Event.streamEv u, Event.writeEv p (chunkContent ws)] })
      else (p, s1)
  | none => (p, s1)

/-- Outcome of an operation that either succeeds or raises a Python
Exception (subprocess.Popen, open for writing). -/
inductive OpOutcome where
  | ok
  | raises
  deriving DecidableEq, Repr

/-- Python exception classes relevant here: Exception subclasses, and
SystemExit (raised by sys.exit), which is a BaseException but not an
Exception. -/
inductive PyExn where
  | exception
  | systemExit (code : Nat)
  deriving DecidableEq, Repr

/-- Whether an except Exception handler catches the raised exception:
SystemExit does not derive from Exception, so it is not caught. -/
def PyExn.caughtByExceptException : PyExn → Bool
  | PyExn.exception => true
  | PyExn.systemExit _ => false

/-- Body of src/GDTPacker.py run_update, up to the exception that leaves the
try block: either subprocess.Popen raises an Exception before any spawn, or
the spawn succeeds and sys.exit(0) raises SystemExit 0. -/
def run_update_body (newExe updExe currentExe : String) (sp : OpOutcome)
    (s : St) : PyExn × St :=
  match sp with
  | OpOutcome.raises => (PyExn.exception, s)
  | OpOutcome.ok =>
      (PyExn.systemExit 0,
       { s with events := s.events ++ [Event.spawnEv updExe [currentExe, newExe]] })

/-- src/GDTPacker.py run_update: runs the body under except Exception. A
caught Exception is logged and the function returns normally (result none);
SystemExit is not caught, so it propagates and terminates the process with
its code (result some code). -/
def run_update (newExe updExe currentExe : String) (sp : OpOutcome) (s : St) :
    Option Nat × St :=
  let r := run_update_body newExe updExe currentExe sp s
  if r.1.caughtByExceptException then (none, r.2)
  else
    match r.1 with
    | PyExn.systemExit c => (some c, r.2)
    | PyExn.exception => (none, r.2)

/-- The environment of one auto_update run: the outcomes of its two metadata
fetches, its two possible downloads, the user dialog answer, and the Popen
outcome. -/
structure World where
  metaFetch : FetchOutcome
  updDl : DlOutcome
  checkFetch : FetchOutcome
  consent : Bool
  spawn : OpOutcome
  payloadDl : DlOutcome

/-- src/GDTPacker.py auto_update: fetch metadata, resolve the updater
binary, check for an update; when a truthy remote version is reported, ask
the user; on consent download the payload; if the download returned a path,
hand off via run_update, else log and return. The result is some code when
the main process exits with that code, none when control returns to the
running application. -/
def auto_update (appdata tmpdir currentExe loc : String) (w : World)
    (s : St) : Option Nat × St :=
  let vd := get_version_data w.metaFetch
  let r1 := get_updater_path appdata vd w.updDl s
  let rv := check_for_updates loc w.checkFetch
  if truthy rv.1 then
    if w.consent then
      let r2 := download_update (rv.2.getD "") tmpdir w.payloadDl r1.2
      match r2.1 with
      | some newExe => run_update newExe r1.1 currentExe w.spawn r2.2
      | none => (none, r2.2)
    else (none, r1.2)
  else (none, r1.2)

/-!
Embedding of src/updater.py, the replace coordinator process.
-/

/-- Outcome of one attempt to append a line to the updater log file: the
open and write succeeded, or one of them raised. -/
inductive LogOutcome where
  | ok
  | raises
  deriving DecidableEq, Repr

/-- State threaded through the updater process: the filesystem, the event
trace, the lines successfully appended to updater_log.txt (kept separately
from fs for direct inspection), and the index of the next log attempt into
the log-outcome oracle. -/
structure UpSt where
  fs : FS
  events : List Event
  logLines : List String
  logIdx : Nat

def emptyUpSt : UpSt := ⟨emptyFS, [], [], 0⟩

/-- The body of src/updater.py log as its callers would observe it without
the try block: appends the timestamped line on success, raises on failure.
The oracle lo gives the outcome of each successive append attempt. -/
def log_append_attempt (lo : Nat → LogOutcome) (m : String) (s : UpSt) :
    Except PyExn UpSt :=
  match lo s.logIdx with
  | LogOutcome.ok =>
      Except.ok { s with logLines := s.logLines ++ [m], logIdx := s.logIdx + 1 }
  | LogOutcome.raises => Except.error PyExn.exception

/-- src/updater.py log as its callers observe it: the append attempt runs
inside try / except Exception, a failure is reported on stdout only, so the
call never raises (it always produces Except.ok). -/
def logE (lo : Nat → LogOutcome) (m : String) (s : UpSt) : Except PyExn UpSt :=
  match log_append_attempt lo m s with
  | Except.ok s1 => Except.ok s1
  | Except.error _ => Except.ok { s with logIdx := s.logIdx + 1 }

/-- The total view of src/updater.py log, justified by logE never producing
an error. -/
def log (lo : Nat → LogOutcome) (m : String) (s : UpSt) : UpSt :=
  match logE lo m s with
  | Except.ok s1 => s1
  | Except.error _ => s

/-- The content of the batch file generated by src/updater.py main, with
new_exe and current_exe spliced in at their f-string positions. -/
def batch_script (newExe currentExe : String) : String :=
  "@echo off\n" ++
  "REM Wait for a few seconds to ensure the old process is completely closed.\n" ++
  "ping 127.0.0.1 -n 5 > nul\n" ++
  "REM Copy the new executable over the current one.\n" ++
  "copy /Y \"" ++ newExe ++ "\" \"" ++ currentExe ++ "\"\n" ++
  "IF ERRORLEVEL 1 (\n" ++
  "    echo Update failed during file copy.\n" ++
  "    exit /b 1\n" ++
  ")\n" ++
  "REM Launch the updated executable.\n" ++
  "start \"\" \"" ++ currentExe ++ "\"\n" ++
  "REM Delete this batch file.\n" ++
  "del \"%~f0\"\n"

/-- The fixed path of the generated batch file: os.path.join of the
directory holding the updater executable and update.bat. -/
def bat_file_path (exeDir : String) : FPath := pjoin exeDir "update.bat"

def usageLine : String := "Usage: updater.exe <current_exe_path> <new_exe_path>"

/-- The environment of one updater-process run: its argument vector
(argv, with argv 0 the program itself), the log-append oracle, the outcome
of writing the batch file, and the outcome of spawning it. -/
structure UpdaterWorld where
  argv : List String
  lo : Nat → LogOutcome
  batWrite : OpOutcome
  spawn : OpOutcome

/-- src/updater.py main: with fewer than two path arguments, log a usage
line and exit 1. Otherwise log the arguments, sleep, write the batch file
beside the updater executable (on failure: log and exit 1), spawn it via
cmd /c (on failure: log and exit 1), and exit 0. The result is the process
exit status paired with the final state. -/
def updater_main (exeDir : String) (w : UpdaterWorld) (s : UpSt) : Nat × UpSt :=
  if w.argv.length < 3 then
    (1, log w.lo usageLine s)
  else
    let current := w.argv.getD 1 ""
    let newE := w.argv.getD 2 ""
    let s1 := log w.lo "Updater started." s
    let s2 := log w.lo ("Current executable: " ++ current) s1
    let s3 := log w.lo ("New executable: " ++ newE) s2
    let s4 := log w.lo "Waiting for the main application to exit..." s3
    let bat := bat_file_path exeDir
    match w.batWrite with
    | OpOutcome.raises =>
        (1, log w.lo "Error writing batch file: ..." s4)
    | OpOutcome.ok =>
        let s5 : UpSt := { s4 with
          fs := s4.fs.write bat (batch_script newE current),
          events := s4.events ++ [Event.writeEv bat (batch_script newE current)] }
        let s6 := log w.lo ("Batch file created at: " ++ bat) s5
        let s7 := log w.lo "Launching updater batch file..." s6
        match w.spawn with
        | OpOutcome.raises =>
            (1, log w.lo "Failed to launch updater batch file: ..." s7)
        | OpOutcome.ok =>
            let s8 : UpSt := { s7 with
              events := s7.events ++ [Event.spawnEv "cmd" ["/c", bat]] }
            let s9 := log w.lo
              "Updater batch file launched successfully. New version should now be starting." s8
            (0, log w.lo "Updater is exiting." s9)

/-!
Helper lemmas.
-/

theorem log_fs (lo : Nat → LogOutcome) (m : String) (s : UpSt) :
    (log lo m s).fs = s.fs := by
  unfold log logE log_append_attempt
  cases lo s.logIdx <;> rfl

theorem log_events (lo : Nat → LogOutcome) (m : String) (s : UpSt) :
    (log lo m s).events = s.events := by
  unfold log logE log_append_attempt
  cases lo s.logIdx <;> rfl

theorem log_ok (lo : Nat → LogOutcome) (m : String) (s : UpSt)
    (h : lo s.logIdx = LogOutcome.ok) :
    log lo m s = { s with logLines := s.logLines ++ [m], logIdx := s.logIdx + 1 } := by
  unfold log logE log_append_attempt
  rw [h]

theorem gup_fst (appdata : String) (vd : VersionData) (o : DlOutcome) (s : St) :
    (get_updater_path appdata vd o s).1 = updater_exe_path appdata := by
  unfold get_updater_path
  cases vd.updater_download_url <;> (dsimp; repeat (first | rfl | split))

theorem ensure_dir_files (appdata : String) (s : St) :
    (ensure_dir appdata s).fs.files = s.fs.files := by
  unfold ensure_dir
  split <;> rfl

theorem ensure_dir_fileExists (appdata : String) (s : St) (p : FPath) :
    (ensure_dir appdata s).fs.fileExists p = s.fs.fileExists p := by
  unfold FS.fileExists
  rw [ensure_dir_files]

theorem ensure_dir_events (appdata : String) (s : St) :
    ∃ dl, (ensure_dir appdata s).events = s.events ++ dl ∧
      attemptCount dl = 0 ∧ streamCount dl = 0 ∧ spawnCount dl = 0 := by
  unfold ensure_dir
  split
  · exact ⟨[], by simp, rfl, rfl, rfl⟩
  · exact ⟨[Event.mkdirEv (updater_dir_path appdata)], by simp,
      rfl, rfl, rfl⟩

theorem gup_skip (appdata : String) (vd : VersionData) (o : DlOutcome) (s : St)
    (h : truthy vd.updater_download_url = false ∨
         s.fs.fileExists (updater_exe_path appdata) = true) :
    (get_updater_path appdata vd o s).2.fs.files = s.fs.files ∧
    ∃ dl, (get_updater_path appdata vd o s).2.events = s.events ++ dl ∧
      attemptCount dl = 0 ∧ streamCount dl = 0 ∧ spawnCount dl = 0 := by
  obtain ⟨dl, hdl, ha, hs, hp⟩ := ensure_dir_events appdata s
  unfold get_updater_path
  cases hu : vd.updater_download_url with
  | none => exact ⟨ensure_dir_files appdata s, dl, hdl, ha, hs, hp⟩
  | some u =>
      dsimp only
      by_cases hu2 : u = ""
      · simp only [hu2, ne_eq, not_true_eq_false, if_false]
        exact ⟨ensure_dir_files appdata s, dl, hdl, ha, hs, hp⟩
      · rcases h with h | h
        · rw [hu] at h
          simp [truthy, hu2] at h
        · have hex : (ensure_dir appdata s).fs.fileExists (updater_exe_path appdata) = true := by
            rw [ensure_dir_fileExists]; exact h
          simp only [ne_eq, hu2, not_false_eq_true, if_true, hex]
          exact ⟨ensure_dir_files appdata s, dl, hdl, ha, hs, hp⟩

theorem gup_dl_nofile (appdata : String) (vd : VersionData) (o : DlOutcome)
    (s : St) (u : String)
    (hu : vd.updater_download_url = some u) (hne : u ≠ "")
    (hex : s.fs.fileExists (updater_exe_path appdata) = false)
    (ho : ∀ ws b, o ≠ DlOutcome.chunks ws b) :
    (get_updater_path appdata vd o s).2.fs.files = s.fs.files ∧
    ∃ dl, (get_updater_path appdata vd o s).2.events =
        s.events ++ dl ++ [Event.getEv u] ∧
      attemptCount dl = 0 ∧ streamCount dl = 0 ∧ spawnCount dl = 0 := by
  obtain ⟨dl, hdl, ha, hs, hp⟩ := ensure_dir_events appdata s
  have hex1 : (ensure_dir appdata s).fs.fileExists (updater_exe_path appdata) = false := by
    rw [ensure_dir_fileExists]; exact hex
  unfold get_updater_path
  rw [hu]
  dsimp only
  rw [if_pos hne]
  simp only [hex1, Bool.false_eq_true, if_false]
  cases o with
  | badStatus code =>
      exact ⟨ensure_dir_files appdata s,
        dl, by rw [hdl, List.append_assoc], ha, hs, hp⟩
  | connFail =>
      exact ⟨ensure_dir_files appdata s,
        dl, by rw [hdl, List.append_assoc], ha, hs, hp⟩
  | chunks ws b => exact absurd rfl (ho ws b)

theorem gup_dl_chunks (appdata : String) (vd : VersionData) (s : St)
    (u : String) (ws : List String) (b : Bool)
    (hu : vd.updater_download_url = some u) (hne : u ≠ "")
    (hex : s.fs.fileExists (updater_exe_path appdata) = false) :
    (get_updater_path appdata vd (DlOutcome.chunks ws b) s).2.fs.files =
      (s.fs.write (updater_exe_path appdata) (chunkContent ws)).files ∧
    ∃ dl, (get_updater_path appdata vd (DlOutcome.chunks ws b) s).2.events =
        s.events ++ dl ++ [Event.getEv u, Event.streamEv u,
          Event.writeEv (updater_exe_path appdata) (chunkContent ws)] ∧
      attemptCount dl = 0 ∧ streamCount dl = 0 ∧ spawnCount dl = 0 := by
  obtain ⟨dl, hdl, ha, hs, hp⟩ := ensure_dir_events appdata s
  have hex1 : (ensure_dir appdata s).fs.fileExists (updater_exe_path appdata) = false := by
    rw [ensure_dir_fileExists]; exact hex
  unfold get_updater_path
  rw [hu]
  dsimp only
  rw [if_pos hne]
  simp only [hex1, Bool.false_eq_true, if_false]
  constructor
  · show (FS.write (ensure_dir appdata s).fs _ _).files = _
    unfold FS.write
    rw [ensure_dir_files]
  · exact ⟨dl, by rw [hdl]; simp, ha, hs, hp⟩

theorem attemptCount_append (a b : List Event) :
    attemptCount (a ++ b) = attemptCount a + attemptCount b :=
  List.countP_append _ _ _

theorem streamCount_append (a b : List Event) :
    streamCount (a ++ b) = streamCount a + streamCount b :=
  List.countP_append _ _ _

theorem spawnCount_append (a b : List Event) :
    spawnCount (a ++ b) = spawnCount a + spawnCount b :=
  List.countP_append _ _ _

theorem truthy_some (ov : Option String) (h : truthy ov = true) :
    ∃ u, ov = some u ∧ u ≠ "" := by
  cases ov with
  | none => simp [truthy] at h
  | some u => exact ⟨u, rfl, by simpa [truthy] using h⟩

theorem write_read_self (fs : FS) (p : FPath) (c : String) :
    (fs.write p c).read p = some c := by
  unfold FS.write FS.read
  simp

theorem write_read_other (fs : FS) (p : FPath) (c : String) (q : FPath)
    (h : q ≠ p) : (fs.write p c).read q = fs.read q := by
  unfold FS.write FS.read
  simp [h]

theorem gup_spawnCount (appdata : String) (vd : VersionData) (o : DlOutcome)
    (s : St) :
    spawnCount (get_updater_path appdata vd o s).2.events = spawnCount s.events := by
  by_cases ht : truthy vd.updater_download_url = true
  · by_cases hex : s.fs.fileExists (updater_exe_path appdata) = true
    · obtain ⟨-, dl, he, -, -, hp⟩ := gup_skip appdata vd o s (Or.inr hex)
      rw [he, spawnCount_append, hp]
      simp
    · obtain ⟨u, hu, hne⟩ := truthy_some _ ht
      have hex2 : s.fs.fileExists (updater_exe_path appdata) = false := by
        simpa using hex
      cases o with
      | chunks ws b =>
          obtain ⟨-, dl, he, -, -, hp⟩ := gup_dl_chunks appdata vd s u ws b hu hne hex2
          rw [he, spawnCount_append, spawnCount_append, hp]
          simp [spawnCount]
      | badStatus code =>
          obtain ⟨-, dl, he, -, -, hp⟩ :=
            gup_dl_nofile appdata vd (DlOutcome.badStatus code) s u hu hne hex2
              (by intro ws b h; cases h)
          rw [he, spawnCount_append, spawnCount_append, hp]
          simp [spawnCount]
      | connFail =>
          obtain ⟨-, dl, he, -, -, hp⟩ :=
            gup_dl_nofile appdata vd DlOutcome.connFail s u hu hne hex2
              (by intro ws b h; cases h)
          rw [he, spawnCount_append, spawnCount_append, hp]
          simp [spawnCount]
  · obtain ⟨-, dl, he, -, -, hp⟩ := gup_skip appdata vd o s (Or.inl (by simpa using ht))
    rw [he, spawnCount_append, hp]
    simp

theorem gup_read_other (appdata : String) (vd : VersionData) (o : DlOutcome)
    (s : St) (q : FPath) (hq : q ≠ updater_exe_path appdata) :
    (get_updater_path appdata vd o s).2.fs.read q = s.fs.read q := by
  by_cases ht : truthy vd.updater_download_url = true
  · by_cases hex : s.fs.fileExists (updater_exe_path appdata) = true
    · obtain ⟨hf, -⟩ := gup_skip appdata vd o s (Or.inr hex)
      show (get_updater_path appdata vd o s).2.fs.files q = s.fs.files q
      rw [hf]
    · obtain ⟨u, hu, hne⟩ := truthy_some _ ht
      have hex2 : s.fs.fileExists (updater_exe_path appdata) = false := by
        simpa using hex
      cases o with
      | chunks ws b =>
          obtain ⟨hf, -⟩ := gup_dl_chunks appdata vd s u ws b hu hne hex2
          show (get_updater_path appdata vd _ s).2.fs.files q = s.fs.files q
          rw [hf]
          unfold FS.write
          simp [hq]
      | badStatus code =>
          obtain ⟨hf, -⟩ :=
            gup_dl_nofile appdata vd (DlOutcome.badStatus code) s u hu hne hex2
              (by intro ws b h; cases h)
          show (get_updater_path appdata vd _ s).2.fs.files q = s.fs.files q
          rw [hf]
      | connFail =>
          obtain ⟨hf, -⟩ :=
            gup_dl_nofile appdata vd DlOutcome.connFail s u hu hne hex2
              (by intro ws b h; cases h)
          show (get_updater_path appdata vd _ s).2.fs.files q = s.fs.files q
          rw [hf]
  · obtain ⟨hf, -⟩ := gup_skip appdata vd o s (Or.inl (by simpa using ht))
    show (get_updater_path appdata vd o s).2.fs.files q = s.fs.files q
    rw [hf]

theorem gup_stream_dichotomy (appdata : String) (vd : VersionData)
    (o : DlOutcome) (s : St) :
    streamCount (get_updater_path appdata vd o s).2.events = streamCount s.events ∨
    (streamCount (get_updater_path appdata vd o s).2.events = streamCount s.events + 1 ∧
     (get_updater_path appdata vd o s).2.fs.fileExists (updater_exe_path appdata) = true) := by
  by_cases ht : truthy vd.updater_download_url = true
  · by_cases hex : s.fs.fileExists (updater_exe_path appdata) = true
    · obtain ⟨-, dl, he, -, hs, -⟩ := gup_skip appdata vd o s (Or.inr hex)
      left
      rw [he, streamCount_append, hs]
      simp
    · obtain ⟨u, hu, hne⟩ := truthy_some _ ht
      have hex2 : s.fs.fileExists (updater_exe_path appdata) = false := by
        simpa using hex
      cases o with
      | chunks ws b =>
          obtain ⟨hf, dl, he, -, hs, -⟩ := gup_dl_chunks appdata vd s u ws b hu hne hex2
          right
          constructor
          · rw [he, streamCount_append, streamCount_append, hs]
            simp [streamCount]
          · show ((get_updater_path appdata vd _ s).2.fs.files _).isSome = true
            rw [hf]
            unfold FS.write
            simp
      | badStatus code =>
          obtain ⟨-, dl, he, -, hs, -⟩ :=
            gup_dl_nofile appdata vd (DlOutcome.badStatus code) s u hu hne hex2
              (by intro ws b h; cases h)
          left
          rw [he, streamCount_append, streamCount_append, hs]
          simp [streamCount]
      | connFail =>
          obtain ⟨-, dl, he, -, hs, -⟩ :=
            gup_dl_nofile appdata vd DlOutcome.connFail s u hu hne hex2
              (by intro ws b h; cases h)
          left
          rw [he, streamCount_append, streamCount_append, hs]
          simp [streamCount]
  · obtain ⟨-, dl, he, -, hs, -⟩ := gup_skip appdata vd o s (Or.inl (by simpa using ht))
    left
    rw [he, streamCount_append, hs]
    simp

theorem dl_spawnCount (url tmpdir : String) (o : DlOutcome) (s : St) :
    spawnCount (download_update url tmpdir o s).2.events = spawnCount s.events := by
  unfold download_update
  cases o with
  | badStatus code =>
      dsimp only
      rw [spawnCount_append]
      simp [spawnCount]
  | connFail =>
      dsimp only
      rw [spawnCount_append]
      simp [spawnCount]
  | chunks ws b =>
      cases b <;> simp [spawnCount, List.countP_append]

theorem dl_read_other (url tmpdir : String) (o : DlOutcome) (s : St) (q : FPath)
    (hq : q ≠ tmp_payload_path tmpdir) :
    (download_update url tmpdir o s).2.fs.read q = s.fs.read q := by
  unfold download_update
  cases o with
  | badStatus code => rfl
  | connFail => rfl
  | chunks ws b =>
      cases b <;> (unfold FS.write FS.read; simp [hq])

/-!
Claim theorems.
-/

/-- C1: on a successfully fetched metadata document, the update check offers
an update (returns a remote version) if and only if the remote version
string is non-empty and, after trimming surrounding whitespace from both
the remote and the local version string, the two are not equal; in
particular a remote version equal to the local one after trimming is never
offered, including when the two differ only in surrounding whitespace. The
comparison is plain string inequality. -/
theorem update_offered_iff_nonempty_and_trim_ne (loc : String) (d : VersionData) :
    ((check_for_updates loc (FetchOutcome.ok d)).1.isSome = true ↔
      ∃ v, d.version = some v ∧ v ≠ "" ∧ pyStrip v ≠ pyStrip loc) ∧
    (∀ v, d.version = some v → pyStrip v = pyStrip loc →
      check_for_updates loc (FetchOutcome.ok d) = (none, none)) := by
  constructor
  · cases hv : d.version with
    | none => simp [check_for_updates, truthy, hv]
    | some v =>
        by_cases h1 : v = "" <;> by_cases h2 : pyStrip v = pyStrip loc <;>
          simp [check_for_updates, truthy, hv, h1, h2]
  · intro v hv h2
    simp [check_for_updates, truthy, hv, h2]

/-- C1 witness: a remote version differing from the local one only in
surrounding whitespace is not offered. -/
theorem update_offered_iff_nonempty_and_trim_ne_witness :
    check_for_updates "1.2.2"
      (FetchOutcome.ok ⟨some " 1.2.2 ", some "u", some "w"⟩) = (none, none) :=
  (update_offered_iff_nonempty_and_trim_ne "1.2.2"
    ⟨some " 1.2.2 ", some "u", some "w"⟩).2 " 1.2.2 " rfl (by decide)

/-- C3: download_update returns the temp path exactly when the stream
completed without exception; on a non-success status, a transport failure,
or a mid-stream exception it returns none — and in the mid-stream case the
partial content has been written to the temp path yet none is still
returned. -/
theorem download_update_completion (url tmpdir : String) (o : DlOutcome) (s : St) :
    ((download_update url tmpdir o s).1 =
      if completed o then some (tmp_payload_path tmpdir) else none) ∧
    (∀ ws, (download_update url tmpdir (DlOutcome.chunks ws true) s).1 = none ∧
      (download_update url tmpdir (DlOutcome.chunks ws true) s).2.fs.read
        (tmp_payload_path tmpdir) = some (chunkContent ws)) := by
  constructor
  · cases o with
    | badStatus code => rfl
    | connFail => rfl
    | chunks ws b => cases b <;> rfl
  · intro ws
    constructor
    · rfl
    · have h : (download_update url tmpdir (DlOutcome.chunks ws true) s).2.fs
          = s.fs.write (tmp_payload_path tmpdir) (chunkContent ws) := rfl
      rw [h]
      exact write_read_self _ _ _

/-- C4: run_update with a successful spawn records exactly one spawn of the
updater executable with the current and new executable paths as arguments
and then terminates the process with exit status 0 — the SystemExit raised
by sys.exit(0) is not caught by the except Exception handler; if the spawn
itself raises, the function returns normally (no exit) with the state
unchanged, so the main process keeps running. -/
theorem run_update_exit_semantics (newExe updExe currentExe : String) (s : St) :
    (run_update newExe updExe currentExe OpOutcome.ok s =
      (some 0,
       { s with events := s.events ++ [Event.spawnEv updExe [currentExe, newExe]] })) ∧
    (run_update newExe updExe currentExe OpOutcome.raises s = (none, s)) ∧
    PyExn.caughtByExceptException (PyExn.systemExit 0) = false :=
  ⟨rfl, rfl, rfl⟩

/-- C2: invoked with fewer than two path arguments, the updater process
logs the usage line and exits with status 1, having performed no file
operation: no batch file written, nothing spawned, the filesystem
untouched. -/
theorem updater_usage_aborts (exeDir : String) (w : UpdaterWorld) (s : UpSt)
    (h : w.argv.length < 3) :
    (updater_main exeDir w s).1 = 1 ∧
    (updater_main exeDir w s).2.events = s.events ∧
    (updater_main exeDir w s).2.fs = s.fs ∧
    (w.lo s.logIdx = LogOutcome.ok →
      (updater_main exeDir w s).2.logLines = s.logLines ++ [usageLine]) := by
  unfold updater_main
  rw [if_pos h]
  exact ⟨rfl, log_events _ _ _, log_fs _ _ _,
    fun hlo => by rw [log_ok _ _ _ hlo]⟩

/-- C2 witness: a run with only the program name aborts with status 1 and
an untouched filesystem. -/
theorem updater_usage_aborts_witness :
    (updater_main "D" ⟨["updater.exe"], fun _ => LogOutcome.ok,
        OpOutcome.ok, OpOutcome.ok⟩ emptyUpSt).1 = 1 ∧
    (updater_main "D" ⟨["updater.exe"], fun _ => LogOutcome.ok,
        OpOutcome.ok, OpOutcome.ok⟩ emptyUpSt).2.events = emptyUpSt.events ∧
    (updater_main "D" ⟨["updater.exe"], fun _ => LogOutcome.ok,
        OpOutcome.ok, OpOutcome.ok⟩ emptyUpSt).2.fs = emptyUpSt.fs ∧
    (updater_main "D" ⟨["updater.exe"], fun _ => LogOutcome.ok,
        OpOutcome.ok, OpOutcome.ok⟩ emptyUpSt).2.logLines =
      emptyUpSt.logLines ++ [usageLine] := by
  have T := updater_usage_aborts "D" ⟨["updater.exe"], fun _ => LogOutcome.ok,
    OpOutcome.ok, OpOutcome.ok⟩ emptyUpSt (by decide)
  exact ⟨T.1, T.2.1, T.2.2.1, T.2.2.2 rfl⟩

/-- C6: a metadata fetch ending in a non-success status or an exception
yields the empty document rather than raising; the update check returns the
no-update result (None, None) whenever the fetched version is empty or
absent, or the fetch itself failed; and in auto_update a no-update check
result means no exit and no process spawned. -/
theorem no_metadata_means_no_update (loc appdata tmpdir curExe : String) :
    (∀ code, get_version_data (FetchOutcome.badStatus code) = emptyVersionData) ∧
    (get_version_data FetchOutcome.exn = emptyVersionData) ∧
    (∀ d, truthy d.version = false →
       check_for_updates loc (FetchOutcome.ok d) = (none, none)) ∧
    (∀ code, check_for_updates loc (FetchOutcome.badStatus code) = (none, none)) ∧
    (check_for_updates loc FetchOutcome.exn = (none, none)) ∧
    (∀ (w : World) (s : St), (check_for_updates loc w.checkFetch).1 = none →
       (auto_update appdata tmpdir curExe loc w s).1 = none ∧
       spawnCount (auto_update appdata tmpdir curExe loc w s).2.events =
         spawnCount s.events) := by
  refine ⟨fun code => rfl, rfl, ?_, fun code => rfl, rfl, ?_⟩
  · intro d hd
    cases hv : d.version with
    | none => simp [check_for_updates, truthy, hv]
    | some v =>
        rw [hv] at hd
        have hv2 : v = "" := by simpa [truthy] using hd
        simp [check_for_updates, truthy, hv, hv2]
  · intro w s h
    unfold auto_update
    dsimp only
    rw [h]
    simp only [truthy, Bool.false_eq_true, if_false]
    refine ⟨by trivial, ?_⟩
    exact gup_spawnCount _ _ _ _

/-- C6 witness: an empty version string offers no update, and a failed
check fetch leaves auto_update with no exit and no spawn. -/
theorem no_metadata_means_no_update_witness :
    check_for_updates "1.2.2" (FetchOutcome.ok ⟨some "", some "u", none⟩) =
      (none, none) ∧
    ((auto_update "A" "T" "C" "1.2.2" ⟨FetchOutcome.exn, DlOutcome.connFail,
        FetchOutcome.exn, true, OpOutcome.ok, DlOutcome.connFail⟩ emptySt).1 =
      none ∧
     spawnCount (auto_update "A" "T" "C" "1.2.2" ⟨FetchOutcome.exn,
        DlOutcome.connFail, FetchOutcome.exn, true, OpOutcome.ok,
        DlOutcome.connFail⟩ emptySt).2.events = spawnCount emptySt.events) :=
  ⟨(no_metadata_means_no_update "1.2.2" "A" "T" "C").2.2.1
      ⟨some "", some "u", none⟩ (by decide),
   (no_metadata_means_no_update "1.2.2" "A" "T" "C").2.2.2.2.2
      ⟨FetchOutcome.exn, DlOutcome.connFail, FetchOutcome.exn, true,
       OpOutcome.ok, DlOutcome.connFail⟩ emptySt rfl⟩

/-- C8: if writing the batch file raises, the updater logs the failure and
exits with status 1 without spawning anything and without touching the
filesystem. -/
theorem batch_write_failure_aborts (exeDir : String) (w : UpdaterWorld)
    (s : UpSt) (ha : 3 ≤ w.argv.length) (hb : w.batWrite = OpOutcome.raises) :
    (updater_main exeDir w s).1 = 1 ∧
    (updater_main exeDir w s).2.events = s.events ∧
    (updater_main exeDir w s).2.fs = s.fs ∧
    ((∀ n, w.lo n = LogOutcome.ok) →
      (updater_main exeDir w s).2.logLines = s.logLines ++
        ["Updater started.",
         "Current executable: " ++ w.argv.getD 1 "",
         "New executable: " ++ w.argv.getD 2 "",
         "Waiting for the main application to exit...",
         "Error writing batch file: ..."]) := by
  unfold updater_main
  rw [if_neg (Nat.not_lt.mpr ha), hb]
  dsimp only
  refine ⟨rfl, ?_, ?_, ?_⟩
  · simp [log_events]
  · simp [log_fs]
  · intro hlo
    rw [log_ok _ _ _ (hlo _), log_ok _ _ _ (hlo _), log_ok _ _ _ (hlo _),
      log_ok _ _ _ (hlo _), log_ok _ _ _ (hlo _)]
    simp

theorem gup_stream_le (appdata : String) (vd : VersionData) (o : DlOutcome)
    (s : St) :
    streamCount (get_updater_path appdata vd o s).2.events ≤
      streamCount s.events + 1 := by
  rcases gup_stream_dichotomy appdata vd o s with h | ⟨h, -⟩ <;> omega

theorem dl_result (url tmpdir : String) (o : DlOutcome) (s : St) :
    (download_update url tmpdir o s).1 =
      if completed o then some (tmp_payload_path tmpdir) else none := by
  cases o with
  | badStatus code => rfl
  | connFail => rfl
  | chunks ws b => cases b <;> rfl

/-- C8 witness: a concrete run whose batch-file write raises exits 1 with
nothing written and the failure logged. -/
theorem batch_write_failure_aborts_witness :
    (updater_main "D" ⟨["updater.exe", "cur", "new"], fun _ => LogOutcome.ok,
        OpOutcome.raises, OpOutcome.ok⟩ emptyUpSt).1 = 1 ∧
    (updater_main "D" ⟨["updater.exe", "cur", "new"], fun _ => LogOutcome.ok,
        OpOutcome.raises, OpOutcome.ok⟩ emptyUpSt).2.events = emptyUpSt.events ∧
    (updater_main "D" ⟨["updater.exe", "cur", "new"], fun _ => LogOutcome.ok,
        OpOutcome.raises, OpOutcome.ok⟩ emptyUpSt).2.fs = emptyUpSt.fs ∧
    (updater_main "D" ⟨["updater.exe", "cur", "new"], fun _ => LogOutcome.ok,
        OpOutcome.raises, OpOutcome.ok⟩ emptyUpSt).2.logLines =
      emptyUpSt.logLines ++
        ["Updater started.",
         "Current executable: " ++ (["updater.exe", "cur", "new"].getD 1 ""),
         "New executable: " ++ (["updater.exe", "cur", "new"].getD 2 ""),
         "Waiting for the main application to exit...",
         "Error writing batch file: ..."] := by
  have T := batch_write_failure_aborts "D" ⟨["updater.exe", "cur", "new"],
    fun _ => LogOutcome.ok, OpOutcome.raises, OpOutcome.ok⟩ emptyUpSt
    (by decide) rfl
  exact ⟨T.1, T.2.1, T.2.2.1, T.2.2.2 (fun n => rfl)⟩

/-- C10: the updater log function never propagates an exception to its
caller (its Except view always returns ok), and no step of the updater
process depends on whether log writes succeed: exit status, event trace and
filesystem are identical under any two log-outcome oracles. -/
theorem updater_log_never_raises :
    (∀ (lo : Nat → LogOutcome) (m : String) (s : UpSt),
       logE lo m s = Except.ok (log lo m s)) ∧
    (∀ (exeDir : String) (argv : List String) (bw sp : OpOutcome)
       (lo1 lo2 : Nat → LogOutcome) (s : UpSt),
       (updater_main exeDir ⟨argv, lo1, bw, sp⟩ s).1 =
         (updater_main exeDir ⟨argv, lo2, bw, sp⟩ s).1 ∧
       (updater_main exeDir ⟨argv, lo1, bw, sp⟩ s).2.events =
         (updater_main exeDir ⟨argv, lo2, bw, sp⟩ s).2.events ∧
       (updater_main exeDir ⟨argv, lo1, bw, sp⟩ s).2.fs =
         (updater_main exeDir ⟨argv, lo2, bw, sp⟩ s).2.fs) := by
  constructor
  · intro lo m s
    unfold log logE log_append_attempt
    cases lo s.logIdx <;> rfl
  · intro exeDir argv bw sp lo1 lo2 s
    unfold updater_main
    dsimp only
    by_cases h : argv.length < 3
    · rw [if_pos h, if_pos h]
      exact ⟨rfl, by rw [log_events, log_events],
        by rw [log_fs, log_fs]⟩
    · rw [if_neg h, if_neg h]
      cases bw <;> cases sp <;>
        exact ⟨rfl, by simp [log_events], by simp [log_fs]⟩

/-- C5: resolving the updater artifact skips the download entirely when the
file already exists at the fixed path (no request issued, no file change);
across two consecutive calls with the same metadata at most one download
streams data, because a streamed response always creates the file and the
second call detects it; and with no updater_download_url in the metadata
the fixed path is returned unchanged with no download attempted. -/
theorem get_updater_path_idempotent (appdata : String) (vd : VersionData)
    (o1 o2 : DlOutcome) (s : St) :
    (s.fs.fileExists (updater_exe_path appdata) = true →
      attemptCount (get_updater_path appdata vd o1 s).2.events =
        attemptCount s.events ∧
      (get_updater_path appdata vd o1 s).2.fs.files = s.fs.files) ∧
    (streamCount (get_updater_path appdata vd o2
        (get_updater_path appdata vd o1 s).2).2.events ≤
      streamCount s.events + 1) ∧
    (truthy vd.updater_download_url = false →
      (get_updater_path appdata vd o1 s).1 = updater_exe_path appdata ∧
      attemptCount (get_updater_path appdata vd o1 s).2.events =
        attemptCount s.events ∧
      (get_updater_path appdata vd o1 s).2.fs.files = s.fs.files) := by
  refine ⟨?_, ?_, ?_⟩
  · intro hex
    obtain ⟨hf, dl, he, haa, -, -⟩ := gup_skip appdata vd o1 s (Or.inr hex)
    refine ⟨?_, hf⟩
    rw [he, attemptCount_append, haa]
    simp
  · rcases gup_stream_dichotomy appdata vd o1 s with hd | ⟨hd, hex⟩
    · have hle := gup_stream_le appdata vd o2 (get_updater_path appdata vd o1 s).2
      rw [hd] at hle
      exact hle
    · obtain ⟨-, dl, he, -, hs0, -⟩ :=
        gup_skip appdata vd o2 (get_updater_path appdata vd o1 s).2 (Or.inr hex)
      rw [he, streamCount_append, hs0, hd]
  · intro hnt
    obtain ⟨hf, dl, he, haa, -, -⟩ := gup_skip appdata vd o1 s (Or.inl hnt)
    refine ⟨gup_fst _ _ _ _, ?_, hf⟩
    rw [he, attemptCount_append, haa]
    simp

/-- A concrete state whose filesystem already holds an updater binary at
the fixed path for APPDATA "A". -/
def preExistingUpdaterSt : St :=
  ⟨⟨fun _ => false,
    fun q => if q = updater_exe_path "A" then some "OLD" else none⟩, []⟩

/-- C5 witness: with the updater already on disk and metadata without a
download URL, both calls skip the download and the path is returned. -/
theorem get_updater_path_idempotent_witness :
    (attemptCount (get_updater_path "A" ⟨none, none, none⟩ DlOutcome.connFail
        preExistingUpdaterSt).2.events = attemptCount preExistingUpdaterSt.events ∧
     (get_updater_path "A" ⟨none, none, none⟩ DlOutcome.connFail
        preExistingUpdaterSt).2.fs.files = preExistingUpdaterSt.fs.files) ∧
    (streamCount (get_updater_path "A" ⟨none, none, none⟩ DlOutcome.connFail
        (get_updater_path "A" ⟨none, none, none⟩ DlOutcome.connFail
          preExistingUpdaterSt).2).2.events ≤
      streamCount preExistingUpdaterSt.events + 1) ∧
    ((get_updater_path "A" ⟨none, none, none⟩ DlOutcome.connFail
        preExistingUpdaterSt).1 = updater_exe_path "A" ∧
     attemptCount (get_updater_path "A" ⟨none, none, none⟩ DlOutcome.connFail
        preExistingUpdaterSt).2.events = attemptCount preExistingUpdaterSt.events ∧
     (get_updater_path "A" ⟨none, none, none⟩ DlOutcome.connFail
        preExistingUpdaterSt).2.fs.files = preExistingUpdaterSt.fs.files) := by
  have T := get_updater_path_idempotent "A" ⟨none, none, none⟩
    DlOutcome.connFail DlOutcome.connFail preExistingUpdaterSt
  exact ⟨T.1 (by decide), T.2.1, T.2.2 rfl⟩

/-- C7: when the payload download does not complete — a non-success status
such as HTTP 404, a transport failure, or a mid-stream drop — auto_update
spawns no updater process, does not exit the main process, and the content
at the current executable path is untouched. -/
theorem failed_download_leaves_app_running (appdata tmpdir curExe loc : String)
    (w : World) (s : St)
    (h1 : curExe ≠ updater_exe_path appdata)
    (h2 : curExe ≠ tmp_payload_path tmpdir)
    (hdl : completed w.payloadDl = false) :
    (auto_update appdata tmpdir curExe loc w s).1 = none ∧
    spawnCount (auto_update appdata tmpdir curExe loc w s).2.events =
      spawnCount s.events ∧
    (auto_update appdata tmpdir curExe loc w s).2.fs.read curExe =
      s.fs.read curExe := by
  unfold auto_update
  dsimp only
  by_cases ht : truthy (check_for_updates loc w.checkFetch).1 = true
  · rw [if_pos ht]
    cases hc : w.consent with
    | false =>
        simp only [Bool.false_eq_true, if_false]
        exact ⟨by trivial, gup_spawnCount _ _ _ _, gup_read_other _ _ _ _ _ h1⟩
    | true =>
        simp only [if_true]
        have hnone : (download_update ((check_for_updates loc w.checkFetch).2.getD "")
            tmpdir w.payloadDl (get_updater_path appdata
              (get_version_data w.metaFetch) w.updDl s).2).1 = none := by
          rw [dl_result, hdl]
          rfl
        rw [hnone]
        refine ⟨by trivial, ?_, ?_⟩
        · rw [dl_spawnCount, gup_spawnCount]
        · rw [dl_read_other _ _ _ _ _ h2, gup_read_other _ _ _ _ _ h1]
  · rw [if_neg ht]
    exact ⟨rfl, gup_spawnCount _ _ _ _, gup_read_other _ _ _ _ _ h1⟩

/-- C7 witness: a 404 on the payload download leaves no spawn, no exit and
the current executable untouched. -/
theorem failed_download_leaves_app_running_witness :
    (auto_update "A" "T" "C" "1.2.2"
        ⟨FetchOutcome.ok ⟨some "1.3.0", some "u", some "w"⟩, DlOutcome.connFail,
         FetchOutcome.ok ⟨some "1.3.0", some "u", some "w"⟩, true, OpOutcome.ok,
         DlOutcome.badStatus 404⟩ emptySt).1 = none ∧
    spawnCount (auto_update "A" "T" "C" "1.2.2"
        ⟨FetchOutcome.ok ⟨some "1.3.0", some "u", some "w"⟩, DlOutcome.connFail,
         FetchOutcome.ok ⟨some "1.3.0", some "u", some "w"⟩, true, OpOutcome.ok,
         DlOutcome.badStatus 404⟩ emptySt).2.events = spawnCount emptySt.events ∧
    (auto_update "A" "T" "C" "1.2.2"
        ⟨FetchOutcome.ok ⟨some "1.3.0", some "u", some "w"⟩, DlOutcome.connFail,
         FetchOutcome.ok ⟨some "1.3.0", some "u", some "w"⟩, true, OpOutcome.ok,
         DlOutcome.badStatus 404⟩ emptySt).2.fs.read "C" = emptySt.fs.read "C" :=
  failed_download_leaves_app_running "A" "T" "C" "1.2.2"
    ⟨FetchOutcome.ok ⟨some "1.3.0", some "u", some "w"⟩, DlOutcome.connFail,
     FetchOutcome.ok ⟨some "1.3.0", some "u", some "w"⟩, true, OpOutcome.ok,
     DlOutcome.badStatus 404⟩ emptySt (by decide) (by decide) rfl

/-- C9: get_updater_path returns the same fixed path whatever the download
outcome; an updater download interrupted mid-stream leaves the partial
content on disk at that path while the function still returns the path;
and every later call that finds content at the path skips the download and
leaves the content unchanged, so the partial file is treated as the updater
from then on. -/
theorem partial_updater_download_persists (appdata : String) (vd : VersionData)
    (o : DlOutcome) (ws : List String) (s : St)
    (hurl : truthy vd.updater_download_url = true)
    (hex : s.fs.fileExists (updater_exe_path appdata) = false) :
    ((get_updater_path appdata vd o s).1 = updater_exe_path appdata) ∧
    ((get_updater_path appdata vd (DlOutcome.chunks ws true) s).2.fs.read
        (updater_exe_path appdata) = some (chunkContent ws)) ∧
    (∀ (s2 : St) (o2 : DlOutcome) (c : String),
      s2.fs.read (updater_exe_path appdata) = some c →
      attemptCount (get_updater_path appdata vd o2 s2).2.events =
        attemptCount s2.events ∧
      (get_updater_path appdata vd o2 s2).2.fs.read (updater_exe_path appdata) =
        some c) := by
  obtain ⟨u, hu, hne⟩ := truthy_some _ hurl
  refine ⟨gup_fst _ _ _ _, ?_, ?_⟩
  · obtain ⟨hf, -⟩ := gup_dl_chunks appdata vd s u ws true hu hne hex
    show (get_updater_path appdata vd _ s).2.fs.files _ = _
    rw [hf]
    unfold FS.write
    simp
  · intro s2 o2 c hc
    have hex2 : s2.fs.fileExists (updater_exe_path appdata) = true := by
      unfold FS.fileExists
      rw [show s2.fs.files (updater_exe_path appdata) = some c from hc]
      rfl
    obtain ⟨hf, dl, he, ha, -, -⟩ := gup_skip appdata vd o2 s2 (Or.inr hex2)
    refine ⟨?_, ?_⟩
    · rw [he, attemptCount_append, ha]
      simp
    · show (get_updater_path appdata vd o2 s2).2.fs.files _ = _
      rw [hf]
      exact hc

/-- C9 witness: an interrupted download leaves the delivered chunks at the
fixed path, and a later call with content present skips the download. -/
theorem partial_updater_download_persists_witness :
    ((get_updater_path "A" ⟨none, none, some "u"⟩ DlOutcome.connFail emptySt).1 =
      updater_exe_path "A") ∧
    ((get_updater_path "A" ⟨none, none, some "u"⟩
        (DlOutcome.chunks ["ab", "cd"] true) emptySt).2.fs.read
        (updater_exe_path "A") = some (chunkContent ["ab", "cd"])) ∧
    (attemptCount (get_updater_path "A" ⟨none, none, some "u"⟩
        DlOutcome.connFail preExistingUpdaterSt).2.events =
      attemptCount preExistingUpdaterSt.events ∧
     (get_updater_path "A" ⟨none, none, some "u"⟩ DlOutcome.connFail
        preExistingUpdaterSt).2.fs.read (updater_exe_path "A") = some "OLD") := by
  have T := partial_updater_download_persists "A" ⟨none, none, some "u"⟩
    DlOutcome.connFail ["ab", "cd"] emptySt (by decide) (by decide)
  exact ⟨T.1, T.2.1, T.2.2 preExistingUpdaterSt DlOutcome.connFail "OLD" (by decide)⟩
